import Mathlib

/-!
Shallow embedding of the chatgpt_linebot repository (src/app.py and
src/restore_firebase_config.py).

External collaborators (the LINE SDK, the OpenAI client, Firestore, the
filesystem, `json.loads`) are modelled as explicit parameters/oracles, and
every externally visible step of the pipeline is recorded in an effect
trace, so that the per-request control flow of the source can be stated
and proved.
-/

/-- A Python-style structured value, as returned by the completion service
or produced by `json.loads`.  `other` stands for any value that is neither
a string, a dict nor a list (subscripting or `.strip()` on it raises). -/
inductive PyObj where
  | str (s : String)
  | dict (entries : List (String × PyObj))
  | arr (elems : List PyObj)
  | other

/-- `obj[key]` on a dict; any failure (not a dict, missing key) is `none`,
modelling the raised `KeyError`/`TypeError`. -/
def pyGet (obj : PyObj) (key : String) : Option PyObj :=
  match obj with
  | PyObj.dict entries => entries.lookup key
  | _ => none

/-- `obj[i]` on a list; failure models `IndexError`/`TypeError`. -/
def pyIndex (obj : PyObj) (i : Nat) : Option PyObj :=
  match obj with
  | PyObj.arr elems => elems.get? i
  | _ => none

/-- The value must be a `str` (otherwise `.strip()` raises `AttributeError`). -/
def pyStr (obj : PyObj) : Option String :=
  match obj with
  | PyObj.str s => some s
  | _ => none

/-- One chat message of the completion request, as a (role, content) pair. -/
abbrev ChatMessage := String × String

/-- The request `get_ai_response` sends to `openai.ChatCompletion.create`
(app.py lines 111-119). -/
structure ChatRequest where
  model : String
  messages : List ChatMessage
  max_tokens : Nat
  temperature : ℚ
  deriving DecidableEq

/-- The fixed system instruction (app.py line 114). -/
def systemPrompt : String := "あなたは親切なアシスタントです。"

/-- The static fallback reply returned when the completion call fails
(app.py line 125). -/
def fallbackReply : String := "すみません、現在応答を生成できません。"

/-- The request built by `get_ai_response` for a given user input
(app.py lines 111-119): fixed model, fixed system message, the user input
as the user message, `max_tokens=100`, `temperature=0.7`. -/
def mkChatRequest (user_input : String) : ChatRequest :=
  { model := "gpt-3.5-turbo"
    messages := [("system", systemPrompt), ("user", user_input)]
    max_tokens := 100
    temperature := 0.7 }

/-- Outcome of one call to the external completion service: either the call
raises (timeout, HTTP error, ...) or it returns some structured value. -/
inductive CallResult where
  | exn
  | ok (resp : PyObj)

/-- One persisted conversation turn: the dict written by `save_message`
(app.py lines 130-135).  The `timestamp` field of the source dict is the
server-assigned sentinel `firestore.SERVER_TIMESTAMP`, a constant, and is
omitted here. -/
structure ConversationRecord where
  user_id : String
  sender : String
  text : String
  deriving DecidableEq

/-- Externally visible effects of one pipeline pass, in program order:
a completion-service call, a Firestore write attempt, a LINE reply
dispatch attempt.  Attempts are recorded whether or not they succeed. -/
inductive Effect where
  | completionCall (req : ChatRequest)
  | writeAttempt (rec : ConversationRecord)
  | dispatchAttempt (reply_token : String) (text : String)
  deriving DecidableEq

/-- Oracles for the external services consulted during one event:
the completion service's behaviour and whether each fallible external
call raises. -/
structure Env where
  service : ChatRequest → CallResult
  userWriteFails : Bool
  botWriteFails : Bool
  dispatchFails : Bool

/-- `response["choices"][0]["message"]["content"]`, which must be a string
(app.py line 120); `none` models any exception raised by the subscripts
or by `.strip()` on a non-string. -/
def extractContent (resp : PyObj) : Option String := do
  let choices ← pyGet resp "choices"
  let c0 ← pyIndex choices 0
  let msg ← pyGet c0 "message"
  let content ← pyGet msg "content"
  pyStr content

/-- `get_ai_response` (app.py lines 109-125): build the fixed request, call
the service once; on success extract and strip the content; on any
exception (raised call or malformed response shape) return the static
fallback.  Returns the reply text and the effect trace of the call. -/
def get_ai_response (user_input : String) (service : ChatRequest → CallResult) :
    String × List Effect :=
  let req := mkChatRequest user_input
  let result :=
    match service req with
    | CallResult.exn => fallbackReply
    | CallResult.ok resp =>
      match extractContent resp with
      | some s => s.trim
      | none => fallbackReply
  (result, [Effect.completionCall req])

/-- `db.collection("messages").add(...)` (app.py lines 130-135): one write
attempt; the oracle says whether the store raises. -/
def db_add (rec : ConversationRecord) (fails : Bool) :
    Except String Unit × List Effect :=
  ((if fails then Except.error "WriteError" else Except.ok ()),
   [Effect.writeAttempt rec])

/-- `save_message` (app.py lines 128-138): attempt the write; any exception
is caught inside the function and only logged, so the function itself
returns normally in both cases. -/
def save_message (user_id sender text : String) (fails : Bool) :
    Except String Unit × List Effect :=
  let call := db_add { user_id := user_id, sender := sender, text := text } fails
  (match call.1 with
   | Except.ok _ => Except.ok ()
   | Except.error _ => Except.ok (),
   call.2)

/-- `line_bot_api.reply_message(reply_token, TextSendMessage(text=...))`
(app.py line 103): one dispatch attempt; the oracle says whether the LINE
API call raises. -/
def line_reply (reply_token text : String) (fails : Bool) :
    Except String Unit × List Effect :=
  ((if fails then Except.error "LineBotApiError" else Except.ok ()),
   [Effect.dispatchAttempt reply_token text])

/-- One parsed text-message event (`MessageEvent` with `TextMessage`):
the three attributes `handle_message` reads (app.py lines 80-82). -/
structure MsgEvent where
  user_id : String
  text : String
  reply_token : String

/-- `handle_message` (app.py lines 78-106), for one verified text event:
save the user turn (exceptions from the save are logged and swallowed by
the `try/except` at lines 87-90, and `save_message` itself never raises),
generate the reply, save the bot turn (same policy, lines 96-99), then
attempt the dispatch (exceptions logged and swallowed, lines 102-106).
The result is the effect trace of the event. -/
def handle_message (ev : MsgEvent) (env : Env) : List Effect :=
  let saveUser := save_message ev.user_id "user" ev.text env.userWriteFails
  let ai := get_ai_response ev.text env.service
  let saveBot := save_message ev.user_id "bot" ai.1 env.botWriteFails
  let reply := line_reply ev.reply_token ai.1 env.dispatchFails
  saveUser.2 ++ ai.2 ++ saveBot.2 ++ reply.2

/-- One event of the decoded webhook batch: either a text message (for
which a handler is registered) or any other event kind, which the SDK
routes to no handler and is skipped. -/
inductive SdkEvent where
  | textMessage (ev : MsgEvent)
  | otherEvent

/-- Joint outcome of the SDK's signature verification and body decoding
inside `handler.handle` (linebot `WebhookParser.parse`): signature
mismatch raises `InvalidSignatureError`; a body that is not decodable
raises the `json.loads` error; otherwise a list of events is produced. -/
inductive ParseOutcome where
  | invalidSignature
  | malformed
  | events (evs : List SdkEvent)

/-- How `handler.handle` terminates, as seen by the `try/except` in
`webhook`: normal return, `InvalidSignatureError`, or any other
exception. -/
inductive HandleResult where
  | ok
  | invalidSig
  | otherExn
  deriving DecidableEq

/-- Process the decoded event list in order: registered handler
(`handle_message`) for text messages, nothing for other events. -/
def handle_events (evs : List SdkEvent) (env : Env) : List Effect :=
  match evs with
  | [] => []
  | e :: rest =>
    (match e with
     | SdkEvent.textMessage ev => handle_message ev env
     | SdkEvent.otherEvent => []) ++ handle_events rest env

/-- `handler.handle(body, signature)` (app.py line 67): verification and
decoding happen before any handler runs, so on `invalidSignature` or
`malformed` the corresponding exception propagates with an empty effect
trace; otherwise each event is dispatched to its handler
(`handle_message` never raises). -/
def handler_handle (p : ParseOutcome) (env : Env) : HandleResult × List Effect :=
  match p with
  | ParseOutcome.invalidSignature => (HandleResult.invalidSig, [])
  | ParseOutcome.malformed => (HandleResult.otherExn, [])
  | ParseOutcome.events evs => (HandleResult.ok, handle_events evs env)

/-- `webhook` (app.py lines 59-75): run `handler.handle`;
`InvalidSignatureError` gives ("Invalid signature", 400), any other
exception gives ("Internal Server Error", 500), normal return gives
("OK", 200).  The result is the HTTP response and the request's effect
trace. -/
def webhook (p : ParseOutcome) (env : Env) : (String × Nat) × List Effect :=
  match handler_handle p env with
  | (HandleResult.invalidSig, tr) => (("Invalid signature", 400), tr)
  | (HandleResult.otherExn, tr) => (("Internal Server Error", 500), tr)
  | (HandleResult.ok, tr) => (("OK", 200), tr)

/-- Classifier used for counting completion calls in a trace. -/
def isCompletionCall (e : Effect) : Bool :=
  match e with
  | Effect.completionCall _ => true
  | _ => false

/-- Classifier used for counting persistence write attempts in a trace. -/
def isWriteAttempt (e : Effect) : Bool :=
  match e with
  | Effect.writeAttempt _ => true
  | _ => false

/-- Classifier used for counting reply dispatch attempts in a trace. -/
def isDispatchAttempt (e : Effect) : Bool :=
  match e with
  | Effect.dispatchAttempt _ _ => true
  | _ => false

/-- The texts recorded as bot turns in a trace. -/
def botTexts (tr : List Effect) : List String :=
  tr.filterMap fun e =>
    match e with
    | Effect.writeAttempt rec => if rec.sender == "bot" then some rec.text else none
    | _ => none

/-- The texts dispatched to the user in a trace. -/
def dispatchTexts (tr : List Effect) : List String :=
  tr.filterMap fun e =>
    match e with
    | Effect.dispatchAttempt _ t => some t
    | _ => none

/-- Result of the restore script: normal termination or a raised
`ValueError`. -/
inductive ScriptResult where
  | ok
  | valueError

/-- A filesystem effect of the restore script: (re)writing a file with the
given parsed content. -/
inductive FsEffect where
  | writeFile (name : String) (content : PyObj)

/-- `restore_firebase_config.py` (lines 5-22): read the credentials
environment variable (`creds`, `none` when unset); if it is unset or empty
(falsy) raise `ValueError`; otherwise `json.loads` it (`jsonLoads`
abstracts Python's `json.loads`, `none` modelling `JSONDecodeError`); on
decode failure raise `ValueError`; only after a successful parse is
`service-account.json` opened and written. -/
def restore_firebase_config (creds : Option String)
    (jsonLoads : String → Option PyObj) : ScriptResult × List FsEffect :=
  match creds with
  | none => (ScriptResult.valueError, [])
  | some s =>
    if s.isEmpty then (ScriptResult.valueError, [])
    else
      match jsonLoads s with
      | none => (ScriptResult.valueError, [])
      | some obj =>
        (ScriptResult.ok, [FsEffect.writeFile "service-account.json" obj])

/-- A fixed concrete environment used for concrete evaluations: the
completion service raises and no other external call fails. -/
def env0 : Env :=
  { service := fun _ => CallResult.exn
    userWriteFails := false
    botWriteFails := false
    dispatchFails := false }

/-- Shared helper: the full effect trace of one verified text event, in
program order.  Used by several claim theorems. -/
theorem handle_message_trace (ev : MsgEvent) (env : Env) :
    handle_message ev env =
      [Effect.writeAttempt ⟨ev.user_id, "user", ev.text⟩,
       Effect.completionCall (mkChatRequest ev.text),
       Effect.writeAttempt
         ⟨ev.user_id, "bot", (get_ai_response ev.text env.service).1⟩,
       Effect.dispatchAttempt ev.reply_token
         (get_ai_response ev.text env.service).1] := rfl

/-- C1: a request whose signature verification fails is answered with
HTTP 400 ("Invalid signature") and its effect trace is empty: no
completion call, no persistence write attempt, no dispatch attempt. -/
theorem webhook_invalid_signature_rejects (env : Env) :
    webhook ParseOutcome.invalidSignature env = (("Invalid signature", 400), []) :=
  rfl

/-- C2: whenever the completion call fails — it raises, or every value it
returns has a shape from which `choices[0].message.content` cannot be
extracted as a string — `get_ai_response` returns the fixed fallback
string, that string is non-empty, and the text dispatched by
`handle_message` for the event is exactly that fallback string. -/
theorem get_ai_response_fallback_on_failure (ev : MsgEvent) (env : Env)
    (h : ∀ resp, env.service (mkChatRequest ev.text) = CallResult.ok resp →
      extractContent resp = none) :
    (get_ai_response ev.text env.service).1 = fallbackReply ∧
    fallbackReply ≠ "" ∧
    dispatchTexts (handle_message ev env) = [fallbackReply] := by
  have hai : (get_ai_response ev.text env.service).1 = fallbackReply := by
    cases hs : env.service (mkChatRequest ev.text) with
    | exn => simp [get_ai_response, hs]
    | ok resp => simp [get_ai_response, hs, h resp hs]
  refine ⟨hai, by decide, ?_⟩
  rw [handle_message_trace]
  simp [dispatchTexts, hai]

/-- Witness for C2 at a concrete event and a service that raises. -/
theorem get_ai_response_fallback_on_failure_witness :
    dispatchTexts (handle_message ⟨"U1", "hello", "T1"⟩ env0) = [fallbackReply] :=
  (get_ai_response_fallback_on_failure ⟨"U1", "hello", "T1"⟩ env0
    (fun _ hr => CallResult.noConfusion hr)).2.2

/-- C3: processing one verified text event performs exactly one completion
call, at most two conversation-record write attempts and exactly one
dispatch attempt, whatever the outcomes of the external calls. -/
theorem handle_message_call_write_dispatch_counts (ev : MsgEvent) (env : Env) :
    (handle_message ev env).countP isCompletionCall = 1 ∧
    (handle_message ev env).countP isWriteAttempt ≤ 2 ∧
    (handle_message ev env).countP isDispatchAttempt = 1 := by
  rw [handle_message_trace]
  refine ⟨?_, ?_, ?_⟩ <;>
    simp [List.countP_cons, isCompletionCall, isWriteAttempt, isDispatchAttempt]

/-- C4: the persistence-failure oracles change nothing in the event's
trace — in particular the dispatch attempt still happens with the same
reply text — and that dispatch attempt, carrying the event's reply token
and the generated (or fallback) text, is in the trace. -/
theorem persistence_failure_does_not_change_dispatch (ev : MsgEvent)
    (service : ChatRequest → CallResult) (a b a2 b2 d : Bool) :
    handle_message ev ⟨service, a, b, d⟩ = handle_message ev ⟨service, a2, b2, d⟩ ∧
    Effect.dispatchAttempt ev.reply_token (get_ai_response ev.text service).1 ∈
      handle_message ev ⟨service, a, b, d⟩ := by
  constructor
  · rw [handle_message_trace, handle_message_trace]
  · rw [handle_message_trace]
    simp

/-- C5 counterexample: for a request that passes signature verification
but whose body is not decodable, the HTTP status is 500, not the 200 the
claim states. -/
theorem malformed_payload_not_200 :
    (webhook ParseOutcome.malformed env0).1.2 = 500 ∧
    (webhook ParseOutcome.malformed env0).1.2 ≠ 200 :=
  ⟨rfl, by decide⟩

/-- C5 amended: for a request that passes signature verification but whose
body is not structurally decodable, zero events are produced and the
decode error propagates out of the SDK handler, so the webhook handler
returns HTTP 500 ("Internal Server Error") with an empty effect trace;
failures after successful verification and decoding are swallowed inside
the event handler and the response is still 200. -/
theorem malformed_payload_returns_500 (env : Env) :
    webhook ParseOutcome.malformed env = (("Internal Server Error", 500), []) ∧
    ∀ evs : List SdkEvent, (webhook (ParseOutcome.events evs) env).1 = ("OK", 200) :=
  ⟨rfl, fun _ => rfl⟩

/-- C6: the completion request of an event with text `t` carries exactly
the fixed system instruction and `t` as the user content, and the event's
trace is, in order: the user-turn record ⟨u, "user", t⟩, the completion
call, the bot-turn record ⟨u, "bot", reply⟩, and the dispatch attempt with
the event's reply token and that reply. -/
theorem handle_message_order_and_content (ev : MsgEvent) (env : Env) :
    (mkChatRequest ev.text).messages = [("system", systemPrompt), ("user", ev.text)] ∧
    handle_message ev env =
      [Effect.writeAttempt ⟨ev.user_id, "user", ev.text⟩,
       Effect.completionCall (mkChatRequest ev.text),
       Effect.writeAttempt
         ⟨ev.user_id, "bot", (get_ai_response ev.text env.service).1⟩,
       Effect.dispatchAttempt ev.reply_token
         (get_ai_response ev.text env.service).1] :=
  ⟨rfl, handle_message_trace ev env⟩

/-- C7: every completion request carries the fixed output cap
`max_tokens = 100` and the fixed `temperature = 0.7`; both are program
constants, identical for every input. -/
theorem completion_params_fixed (input : String) :
    (mkChatRequest input).max_tokens = 100 ∧
    (mkChatRequest input).temperature = 7 / 10 ∧
    ∀ other : String,
      (mkChatRequest input).max_tokens = (mkChatRequest other).max_tokens ∧
      (mkChatRequest input).temperature = (mkChatRequest other).temperature := by
  refine ⟨rfl, ?_, fun _ => ⟨rfl, rfl⟩⟩
  norm_num [mkChatRequest]

/-- C8: `save_message` returns normally for every input and every outcome
of the underlying store write: the exception is caught inside the
function, so its callers never see it raise. -/
theorem save_message_never_raises (user_id sender text : String) (fails : Bool) :
    (save_message user_id sender text fails).1 = Except.ok () := by
  cases fails <;> rfl

/-- C9: in the trace of one verified text event, the texts recorded as bot
turns coincide with the texts dispatched to the user — both are the single
`ai_response` value of the event. -/
theorem bot_record_text_equals_dispatched_text (ev : MsgEvent) (env : Env) :
    botTexts (handle_message ev env) = dispatchTexts (handle_message ev env) := by
  rw [handle_message_trace]
  simp [botTexts, dispatchTexts]

/-- C10: the restore script writes `service-account.json` only after the
credentials variable is present and successfully parsed: any file write in
its effect list implies a successful parse, and when the variable is unset
or its parse fails the script raises `ValueError` with no filesystem
effect. -/
theorem restore_config_write_gated_on_parse (creds : Option String)
    (jsonLoads : String → Option PyObj) :
    ((restore_firebase_config creds jsonLoads).2 ≠ [] →
      ∃ s obj, creds = some s ∧ jsonLoads s = some obj) ∧
    (∀ s, creds = some s → jsonLoads s = none →
      restore_firebase_config creds jsonLoads = (ScriptResult.valueError, [])) ∧
    (creds = none →
      restore_firebase_config creds jsonLoads = (ScriptResult.valueError, [])) := by
  refine ⟨?_, ?_, ?_⟩
  · intro hne
    cases creds with
    | none => simp [restore_firebase_config] at hne
    | some s =>
      by_cases he : s.isEmpty
      · simp [restore_firebase_config, he] at hne
      · cases hj : jsonLoads s with
        | none => simp [restore_firebase_config, he, hj] at hne
        | some obj => exact ⟨s, obj, rfl, hj⟩
  · intro s hs hj
    subst hs
    by_cases he : s.isEmpty <;> simp [restore_firebase_config, he, hj]
  · intro hn
    subst hn
    rfl

/-- Witness for C10 at a concrete unparsable value. -/
theorem restore_config_write_gated_on_parse_witness :
    restore_firebase_config (some "x") (fun _ => none) =
      (ScriptResult.valueError, []) :=
  (restore_config_write_gated_on_parse (some "x") (fun _ => none)).2.1 "x" rfl rfl
